import Mathlib

/-!
Shallow embedding of `src/index.js` (Airbus sustainability report page script)
and verification of its specification claims.

DOM geometry is modelled over `ℚ` (the script only compares coordinates, so
exact rationals are a faithful model of the comparisons it performs).  The
document is modelled as a lookup from element ids to optional bounding
rectangles; browser side effects (scrolling, URL updates, focus, console
warnings, analytics calls) are recorded in an explicit `PageState`.
-/

set_option autoImplicit false

namespace AirbusSite

/-- Bounding rectangle of a DOM element as returned by
`getBoundingClientRect()`: its `top` and `bottom` in viewport coordinates. -/
structure Rect where
  top : ℚ
  bottom : ℚ
deriving DecidableEq

/-- Embedding of `isElementVisible(element, threshold)` (src/index.js lines
88-98).  A null element is reported not visible; otherwise the element is
visible when `rect.top <= windowHeight * (1 - threshold)` and
`rect.bottom >= windowHeight * threshold`.  The source defaults `threshold`
to `0.5`; every call site of interest passes it explicitly. -/
def isElementVisible (element : Option Rect) (windowHeight threshold : ℚ) : Bool :=
  match element with
  | none => false
  | some rect =>
      decide (rect.top ≤ windowHeight * (1 - threshold)) &&
      decide (rect.bottom ≥ windowHeight * threshold)

/-- Modelled from the spec: the length of the overlap between an element
rectangle and the viewport `[0, windowHeight]`.  The spec describes the
visibility test as "30% of viewport height overlap"; this definition exists
only to compare that description with `isElementVisible`. -/
def viewportOverlap (rect : Rect) (windowHeight : ℚ) : ℚ :=
  min rect.bottom windowHeight - max rect.top 0

/-- The document, as the script reads it through `getElementById`: a map
from element id to the bounding rectangle of that element, when present. -/
def Dom : Type := String → Option Rect

/-- The fixed ordered section id list of `updateActiveNavLink`
(src/index.js line 126). -/
def sections : List String := ["homepage", "performance", "report"]

/-- The loop-body test of `updateActiveNavLink` (src/index.js line 133):
the section element exists and is visible at threshold `0.3`. -/
def sectionVisible (dom : Dom) (windowHeight : ℚ) (id : String) : Bool :=
  (dom id).isSome && isElementVisible (dom id) windowHeight (3/10)

/-- The first half of `updateActiveNavLink` (src/index.js lines 128-137):
`activeSection` starts as the empty string and becomes the first section id
in `sections` whose element exists and is visible, the loop breaking there. -/
def computeActiveSection (dom : Dom) (windowHeight : ℚ) : String :=
  match sections.find? (sectionVisible dom windowHeight) with
  | some id => id
  | none => ""

/-- C1: `updateActiveNavLink` scans the fixed list
`["homepage", "performance", "report"]` in order and selects the first
section that exists and is visible at threshold 0.3; later sections are
never consulted once one matches, and if none is visible the active
section is the empty string.  The if-chain on the right is exactly that
first-match semantics. -/
theorem computeActiveSection_first_visible (dom : Dom) (windowHeight : ℚ) :
    computeActiveSection dom windowHeight =
      if sectionVisible dom windowHeight "homepage" then "homepage"
      else if sectionVisible dom windowHeight "performance" then "performance"
      else if sectionVisible dom windowHeight "report" then "report"
      else "" := by
  cases h1 : sectionVisible dom windowHeight "homepage" <;>
    cases h2 : sectionVisible dom windowHeight "performance" <;>
      cases h3 : sectionVisible dom windowHeight "report" <;>
        simp [computeActiveSection, sections, List.find?, h1, h2, h3]

/-- C2 counterexample: the claim states that `isElementVisible` at
threshold 0.3 holds exactly when the element overlaps the viewport by at
least `0.3 * windowHeight`.  For the rectangle with top 50 and bottom 75
in a viewport of height 100 the function returns `true`, yet the overlap
is `25 < 30`. -/
theorem isElementVisible_overlap_counterexample :
    isElementVisible (some ⟨50, 75⟩) 100 (3/10) = true ∧
    viewportOverlap ⟨50, 75⟩ 100 < (3/10) * 100 := by
  constructor
  · simp [isElementVisible]
    norm_num
  · simp [viewportOverlap]
    norm_num

/-- C2 (amended): `isElementVisible element 0.3` holds exactly when the
element exists with `top ≤ 0.7 * windowHeight` and
`bottom ≥ 0.3 * windowHeight`; an overlap of at least `0.3 * windowHeight`
with the viewport is sufficient for visibility, but not necessary. -/
theorem isElementVisible_iff (rect : Rect) (windowHeight : ℚ)
    (hH : 0 ≤ windowHeight) :
    (isElementVisible (some rect) windowHeight (3/10) = true ↔
      rect.top ≤ windowHeight * (1 - 3/10) ∧
      rect.bottom ≥ windowHeight * (3/10)) ∧
    (viewportOverlap rect windowHeight ≥ (3/10) * windowHeight →
      isElementVisible (some rect) windowHeight (3/10) = true) := by
  constructor
  · simp [isElementVisible]
  · intro hov
    have hθ : (0:ℚ) ≤ (3/10) * windowHeight := by positivity
    have hb : rect.bottom ≥ windowHeight * (3/10) := by
      have h1 : min rect.bottom windowHeight ≥
          (3/10) * windowHeight + max rect.top 0 := by
        have := le_max_right rect.top 0
        unfold viewportOverlap at hov
        linarith [le_max_right rect.top (0:ℚ)]
      have h2 : rect.bottom ≥ min rect.bottom windowHeight :=
        min_le_left _ _
      have h3 : max rect.top 0 ≥ 0 := le_max_right _ _
      linarith
    have ht : rect.top ≤ windowHeight * (1 - 3/10) := by
      have h1 : max rect.top 0 ≤ min rect.bottom windowHeight -
          (3/10) * windowHeight := by
        unfold viewportOverlap at hov
        linarith
      have h2 : min rect.bottom windowHeight ≤ windowHeight :=
        min_le_right _ _
      have h3 : rect.top ≤ max rect.top 0 := le_max_left _ _
      linarith
    simp [isElementVisible]
    exact ⟨ht, hb⟩

/-- C2 amended-theorem witness at a concrete viewport height. -/
theorem isElementVisible_iff_witness :
    (isElementVisible (some ⟨0, 80⟩) 100 (3/10) = true ↔
      (0:ℚ) ≤ 100 * (1 - 3/10) ∧ (80:ℚ) ≥ 100 * (3/10)) ∧
    (viewportOverlap ⟨0, 80⟩ 100 ≥ (3/10) * 100 →
      isElementVisible (some ⟨0, 80⟩) 100 (3/10) = true) :=
  isElementVisible_iff ⟨0, 80⟩ 100 (by norm_num)

/-- A navigation link matched by the selector `nav a.smooth-scroll`: its
`href` attribute (`getAttribute` may return null), its class list and its
`aria-current` attribute. -/
structure NavLink where
  href : Option String
  classes : List String
  ariaCurrent : Option String
deriving DecidableEq

/-- `element.classList.toggle(c, force)`: with `force = true` the class is
added when absent, with `force = false` it is removed. -/
def classListToggle (classes : List String) (c : String) (force : Bool) :
    List String :=
  if force then (if c ∈ classes then classes else classes ++ [c])
  else classes.filter (fun x => x != c)

/-- The per-link body of the `navLinks.forEach` in `updateActiveNavLink`
(src/index.js lines 140-146): the link is active exactly when its `href`
attribute equals `"#" + activeSection`; the `active` class is toggled
accordingly and `aria-current` is set to `"page"` or `"false"`. -/
def updateNavLink (activeSection : String) (l : NavLink) : NavLink :=
  let isActive := l.href == some ("#" ++ activeSection)
  { href := l.href
    classes := classListToggle l.classes "active" isActive
    ariaCurrent := some (if isActive then "page" else "false") }

/-- Embedding of the whole of `updateActiveNavLink` (src/index.js lines
125-147): compute the active section, then rewrite every matched nav
link. -/
def updateActiveNavLink (dom : Dom) (windowHeight : ℚ)
    (navLinks : List NavLink) : List NavLink :=
  navLinks.map (updateNavLink (computeActiveSection dom windowHeight))

lemma mem_classListToggle_self (classes : List String) (c : String) :
    c ∈ classListToggle classes c true := by
  unfold classListToggle
  simp only [if_true]
  split
  · assumption
  · simp

lemma not_mem_classListToggle_self (classes : List String) (c : String) :
    c ∉ classListToggle classes c false := by
  unfold classListToggle
  simp [List.mem_filter]

lemma updateNavLink_active (S : String) (l : NavLink)
    (h : l.href = some ("#" ++ S)) :
    "active" ∈ (updateNavLink S l).classes ∧
    (updateNavLink S l).ariaCurrent = some "page" := by
  have hb : (l.href == some ("#" ++ S)) = true := by
    rw [h]
    simp
  unfold updateNavLink
  simp only [hb]
  exact ⟨mem_classListToggle_self _ _, rfl⟩

lemma updateNavLink_inactive (S : String) (l : NavLink)
    (h : l.href ≠ some ("#" ++ S)) :
    "active" ∉ (updateNavLink S l).classes ∧
    (updateNavLink S l).ariaCurrent = some "false" := by
  have hb : (l.href == some ("#" ++ S)) = false := by
    simp [h]
  unfold updateNavLink
  simp only [hb]
  exact ⟨not_mem_classListToggle_self _ _, rfl⟩

lemma updateNavLink_href (S : String) (l : NavLink) :
    (updateNavLink S l).href = l.href := rfl

/-- C3: after `updateActiveNavLink` runs with active section `S`, every
matched nav link whose `href` equals `"#" + S` carries the `active` class
and `aria-current="page"`, and every other matched link has the `active`
class removed and `aria-current="false"`. -/
theorem updateActiveNavLink_marks_links (dom : Dom) (windowHeight : ℚ)
    (navLinks : List NavLink) (l : NavLink)
    (hl : l ∈ updateActiveNavLink dom windowHeight navLinks) :
    (l.href = some ("#" ++ computeActiveSection dom windowHeight) →
      "active" ∈ l.classes ∧ l.ariaCurrent = some "page") ∧
    (l.href ≠ some ("#" ++ computeActiveSection dom windowHeight) →
      "active" ∉ l.classes ∧ l.ariaCurrent = some "false") := by
  rcases List.mem_map.mp hl with ⟨l0, _, rfl⟩
  set S := computeActiveSection dom windowHeight with hS
  constructor
  · intro h
    exact updateNavLink_active S l0 (by rwa [updateNavLink_href] at h)
  · intro h
    exact updateNavLink_inactive S l0 (by rwa [updateNavLink_href] at h)

/-- A document with no elements at all: every id lookup returns null. -/
def emptyDom : Dom := fun _ => none

/-- The nav link whose href is the bare fragment `"#"`. -/
def hashLink : NavLink := { href := some "#", classes := [], ariaCurrent := none }

/-- A nav link pointing at the homepage section. -/
def homeLink : NavLink :=
  { href := some "#homepage", classes := ["active"], ariaCurrent := some "page" }

/-- A document where only the homepage section exists, filling the top half
of a viewport of height 100 (visible at threshold 0.3). -/
def homeDom : Dom := fun id => if id = "homepage" then some ⟨0, 50⟩ else none

/-- C3 witness: in a document where the homepage section is visible, the
homepage link keeps the `active` class and the bare `"#"` link loses it. -/
theorem updateActiveNavLink_marks_links_witness :
    ((homeLink.href = some ("#" ++ computeActiveSection homeDom 100) →
      "active" ∈ homeLink.classes ∧ homeLink.ariaCurrent = some "page") ∧
    (homeLink.href ≠ some ("#" ++ computeActiveSection homeDom 100) →
      "active" ∉ homeLink.classes ∧ homeLink.ariaCurrent = some "false")) :=
  updateActiveNavLink_marks_links homeDom 100 [homeLink] homeLink
    (by simp [updateActiveNavLink, updateNavLink, homeDom, homeLink,
          computeActiveSection, sections, sectionVisible, isElementVisible,
          List.find?, classListToggle]
        norm_num
        decide)

/-- C10: when none of the three listed sections is visible the active
section is the empty string, and a matched nav link then carries the
`active` class and `aria-current="page"` exactly when its `href` attribute
is the bare string `"#"`; every link with any other href is stamped
`aria-current="false"`. -/
theorem no_visible_section_activates_hash_link (dom : Dom) (windowHeight : ℚ)
    (navLinks : List NavLink)
    (hnone : ∀ id ∈ sections, sectionVisible dom windowHeight id = false) :
    computeActiveSection dom windowHeight = "" ∧
    ∀ l ∈ updateActiveNavLink dom windowHeight navLinks,
      (("active" ∈ l.classes ∧ l.ariaCurrent = some "page") ↔
        l.href = some "#") ∧
      (l.href ≠ some "#" → l.ariaCurrent = some "false") := by
  have hempty : computeActiveSection dom windowHeight = "" := by
    unfold computeActiveSection
    rw [List.find?_eq_none.mpr]
    intro x hx
    simp [hnone x hx]
  refine ⟨hempty, ?_⟩
  intro l hl
  rcases List.mem_map.mp hl with ⟨l0, _, rfl⟩
  rw [hempty] at *
  by_cases h : l0.href = some "#"
  · have := updateNavLink_active "" l0 (by simpa using h)
    constructor
    · constructor
      · intro _
        simpa [updateNavLink_href] using h
      · intro _
        exact this
    · intro hne
      exact absurd (by simpa [updateNavLink_href] using h) hne
  · have := updateNavLink_inactive "" l0 (by simpa using h)
    constructor
    · constructor
      · intro hc
        exact absurd hc.1 this.1
      · intro hh
        exact absurd (by simpa [updateNavLink_href] using hh) h
    · intro _
      exact this.2

/-- C10 witness: with an empty document nothing is visible, the active
section is empty, and the bare `"#"` link is the one marked active. -/
theorem no_visible_section_activates_hash_link_witness :
    computeActiveSection emptyDom 100 = "" ∧
    ∀ l ∈ updateActiveNavLink emptyDom 100 [hashLink, homeLink],
      (("active" ∈ l.classes ∧ l.ariaCurrent = some "page") ↔
        l.href = some "#") ∧
      (l.href ≠ some "#" → l.ariaCurrent = some "false") :=
  no_visible_section_activates_hash_link emptyDom 100 [hashLink, homeLink]
    (by intro id _
        simp [sectionVisible, emptyDom, isElementVisible])

section Timers

variable {α : Type}

/-- State of the single closure-captured `timeout` variable of a wrapper
returned by `throttle` or `debounce`: when a timer is pending, the time it
is scheduled to fire and the arguments its `later` callback will pass to
the wrapped function. -/
def TimerState (α : Type) : Type := Option (ℕ × α)

/-- The wrapper body of `throttle(func, wait)` (src/index.js lines 19-26):
on a call at time `t` with arguments `a`, `clearTimeout(timeout)` discards
any pending timer and `setTimeout(later, wait)` schedules `func(...args)`
at `t + wait`. -/
def throttleOnCall (wait t : ℕ) (a : α) (_timeout : TimerState α) :
    TimerState α :=
  some (t + wait, a)

/-- The wrapper body of `debounce(func, wait)` (src/index.js lines 37-44),
textually identical to the `throttle` wrapper body. -/
def debounceOnCall (wait t : ℕ) (a : α) (_timeout : TimerState α) :
    TimerState α :=
  some (t + wait, a)

/-- Runs a `throttle(func, wait)` wrapper over a time-ordered event stream
`calls` of `(time, args)` pairs, starting from timer state `pending`, and
returns the list of `(time, args)` invocations of the wrapped function.
A pending timer fires only if it comes due strictly before the next call;
otherwise that call's `clearTimeout` discards it.  After the last call the
surviving timer fires. -/
def throttleRun (wait : ℕ) : List (ℕ × α) → TimerState α → List (ℕ × α)
  | [], pending => pending.toList
  | (t, a) :: rest, pending =>
      (match pending with
       | some (ft, fa) => if ft < t then [(ft, fa)] else []
       | none => []) ++ throttleRun wait rest (throttleOnCall wait t a pending)

/-- Runs a `debounce(func, wait)` wrapper over a time-ordered event stream,
with the same timer semantics as `throttleRun`. -/
def debounceRun (wait : ℕ) : List (ℕ × α) → TimerState α → List (ℕ × α)
  | [], pending => pending.toList
  | (t, a) :: rest, pending =>
      (match pending with
       | some (ft, fa) => if ft < t then [(ft, fa)] else []
       | none => []) ++ debounceRun wait rest (debounceOnCall wait t a pending)

lemma throttleRun_eq_debounceRun (wait : ℕ) :
    ∀ (calls : List (ℕ × α)) (pending : TimerState α),
      throttleRun wait calls pending = debounceRun wait calls pending := by
  intro calls
  induction calls with
  | nil => intro pending; rfl
  | cons hd rest ih =>
      intro pending
      obtain ⟨t, a⟩ := hd
      simp only [throttleRun, debounceRun, throttleOnCall, debounceOnCall, ih]

/-- Every invocation produced by `throttleRun` either is the initial
pending timer firing before all calls, or stems from a call `(t, a)` with
the invocation at `t + wait`, `t` being the largest call time at or before
the invocation. -/
lemma throttleRun_mem (wait : ℕ) :
    ∀ (calls : List (ℕ × α)) (pending : TimerState α) (τ : ℕ) (a : α),
      calls.Pairwise (fun p q => p.1 < q.1) →
      (τ, a) ∈ throttleRun wait calls pending →
      (pending = some (τ, a) ∧ ∀ c ∈ calls, τ < c.1) ∨
      (∃ t, (t, a) ∈ calls ∧ τ = t + wait ∧
        ∀ c ∈ calls, c.1 ≤ τ → c.1 ≤ t) := by
  intro calls
  induction calls with
  | nil =>
      intro pending τ a _ hmem
      left
      simp only [throttleRun, Option.mem_toList] at hmem
      exact ⟨hmem, by simp⟩
  | cons hd rest ih =>
      intro pending τ a hpw hmem
      obtain ⟨t1, a1⟩ := hd
      simp only [throttleRun, List.mem_append] at hmem
      rcases hmem with hfire | hrec
      · left
        match pending with
        | none => simp at hfire
        | some (ft, fa) =>
            by_cases hlt : ft < t1
            · simp only [hlt, if_true, List.mem_singleton] at hfire
              obtain ⟨hτ, ha⟩ := Prod.mk.injEq .. ▸ hfire
              subst hτ; subst ha
              refine ⟨rfl, ?_⟩
              intro c hc
              rcases List.mem_cons.mp hc with rfl | hc'
              · exact hlt
              · exact lt_trans hlt ((List.pairwise_cons.mp hpw).1 c hc')
            · simp [hlt] at hfire
      · have hpw' : rest.Pairwise (fun p q => p.1 < q.1) :=
          (List.pairwise_cons.mp hpw).2
        have hhd : ∀ c ∈ rest, t1 < c.1 := (List.pairwise_cons.mp hpw).1
        rcases ih (throttleOnCall wait t1 a1 pending) τ a hpw' hrec with
          ⟨hpend, hall⟩ | ⟨t, hmem', hτ, hmax⟩
        · right
          unfold throttleOnCall at hpend
          obtain ⟨hτ, ha⟩ := Prod.mk.injEq .. ▸ (Option.some_injective _ hpend)
          refine ⟨t1, ?_, hτ.symm, ?_⟩
          · rw [ha]
            exact List.mem_cons_self _ _
          · intro c hc hcτ
            rcases List.mem_cons.mp hc with rfl | hc'
            · exact le_refl _
            · exact absurd hcτ (not_le.mpr (hall c hc'))
        · right
          refine ⟨t, List.mem_cons_of_mem _ hmem', hτ, ?_⟩
          intro c hc hcτ
          rcases List.mem_cons.mp hc with rfl | hc'
          · exact le_of_lt (hhd (t, a) hmem')
          · exact hmax c hc' hcτ

end Timers

/-- C4: on a strictly time-ordered call stream, the wrappers built by
`throttle` and `debounce` are trailing-edge rate limiters: every call
overwrites the pending timer with one due `wait` later carrying that
call's arguments; every invocation of the wrapped function happens exactly
`wait` after some call `t` that is the most recent call at or before the
invocation (so the function never runs before `wait` has elapsed since the
most recent call, and it receives the arguments of that final call); two
distinct invocations are always more than `wait` apart; and the
`debounce` wrapper produces the very same invocations. -/
theorem throttle_debounce_trailing_edge {α : Type} (wait : ℕ)
    (calls : List (ℕ × α))
    (hpw : calls.Pairwise (fun p q => p.1 < q.1)) :
    (∀ (t : ℕ) (a : α) (pending : TimerState α),
      throttleOnCall wait t a pending = some (t + wait, a) ∧
      debounceOnCall wait t a pending = some (t + wait, a)) ∧
    (∀ τ a, (τ, a) ∈ throttleRun wait calls (none : TimerState α) →
      ∃ t, (t, a) ∈ calls ∧ τ = t + wait ∧
        ∀ c ∈ calls, c.1 ≤ τ → c.1 ≤ t) ∧
    (∀ τ a τ' a', (τ, a) ∈ throttleRun wait calls (none : TimerState α) →
      (τ', a') ∈ throttleRun wait calls (none : TimerState α) →
      τ < τ' → τ + wait < τ') ∧
    throttleRun wait calls (none : TimerState α) =
      debounceRun wait calls (none : TimerState α) := by
  have hsound : ∀ τ a, (τ, a) ∈ throttleRun wait calls (none : TimerState α) →
      ∃ t, (t, a) ∈ calls ∧ τ = t + wait ∧
        ∀ c ∈ calls, c.1 ≤ τ → c.1 ≤ t := by
    intro τ a hmem
    rcases throttleRun_mem wait calls none τ a hpw hmem with ⟨h, _⟩ | h
    · exact absurd h (by simp)
    · exact h
  refine ⟨fun t a pending => ⟨rfl, rfl⟩, hsound, ?_, throttleRun_eq_debounceRun wait calls none⟩
  intro τ a τ' a' hm hm' hlt
  obtain ⟨t, htc, hτ, hmax⟩ := hsound τ a hm
  obtain ⟨t', htc', hτ', hmax'⟩ := hsound τ' a' hm'
  have ht'τ : ¬ t' ≤ τ := by
    intro hle
    have h1 : t' ≤ t := hmax (t', a') htc' hle
    have : τ' ≤ τ := by omega
    omega
  omega

/-- C4 witness: two calls 5 apart with wait 16: only the second call's
timer survives and fires at `5 + 16 = 21` with the second call's
arguments. -/
theorem throttle_debounce_trailing_edge_witness :
    (∀ (t : ℕ) (a : ℕ) (pending : TimerState ℕ),
      throttleOnCall 16 t a pending = some (t + 16, a) ∧
      debounceOnCall 16 t a pending = some (t + 16, a)) ∧
    (∀ τ a, (τ, a) ∈ throttleRun 16 [(0, 1), (5, 2)] (none : TimerState ℕ) →
      ∃ t, (t, a) ∈ [(0, 1), (5, 2)] ∧ τ = t + 16 ∧
        ∀ c ∈ [((0:ℕ), (1:ℕ)), (5, 2)], c.1 ≤ τ → c.1 ≤ t) ∧
    (∀ τ a τ' a',
      (τ, a) ∈ throttleRun 16 [(0, 1), (5, 2)] (none : TimerState ℕ) →
      (τ', a') ∈ throttleRun 16 [(0, 1), (5, 2)] (none : TimerState ℕ) →
      τ < τ' → τ + 16 < τ') ∧
    throttleRun 16 [(0, 1), (5, 2)] (none : TimerState ℕ) =
      debounceRun 16 [(0, 1), (5, 2)] (none : TimerState ℕ) :=
  throttle_debounce_trailing_edge 16 [(0, 1), (5, 2)] (by decide)

/-- C8: `throttle` and `debounce` are behaviourally identical: their call
bodies perform the same timer update and, over any event stream from any
timer state, they invoke the wrapped function at identical times with
identical arguments. -/
theorem throttle_eq_debounce {α : Type} (wait : ℕ) (calls : List (ℕ × α))
    (pending : TimerState α) :
    (∀ (t : ℕ) (a : α), throttleOnCall wait t a pending =
      debounceOnCall wait t a pending) ∧
    throttleRun wait calls pending = debounceRun wait calls pending :=
  ⟨fun _ _ => rfl, throttleRun_eq_debounceRun wait calls pending⟩

/-- Observable browser state touched by the script: the document, the
location split into its components, the current URL string, whether
`history.pushState` exists, the focused element, the element last scrolled
into view, the console warnings emitted and the analytics events sent. -/
structure PageState where
  dom : Dom
  pathname : String
  search : String
  url : String
  pushStateSupported : Bool
  focused : Option String
  scrolledInto : Option String
  warnings : List String
  events : List (String × String × String)

/-- The console warning of `scrollToElement` for a missing element
(src/index.js line 78). -/
def warnNotFound (targetId : String) : String :=
  "[Airbus Site] Element with ID \x27" ++ targetId ++ "\x27 not found"

/-- Embedding of `scrollToElement(targetId)` (src/index.js lines 53-80).
When the element exists it is scrolled into view, the URL is replaced by
`pathname + search + "#" + targetId` when `history.pushState` exists, the
element is focused without scrolling, and the call returns true.  When it
does not exist, a console warning is emitted and the call returns false.
The `options` argument only configures the scroll animation and is not
part of the observable state modelled here. -/
def scrollToElement (targetId : String) (s : PageState) : Bool × PageState :=
  match s.dom targetId with
  | some _ =>
      let s1 := { s with scrolledInto := some targetId }
      let s2 :=
        if s1.pushStateSupported then
          { s1 with url := s1.pathname ++ s1.search ++ "#" ++ targetId }
        else s1
      (true, { s2 with focused := some targetId })
  | none =>
      (false, { s with warnings := s.warnings ++ [warnNotFound targetId] })

/-- C5: for a target id with no matching element, `scrollToElement` returns
false and its only effect is appending the console warning: the URL,
pathname, search string, focus, scroll target and analytics events are all
untouched, and (the embedding being a total function) no exception escapes. -/
theorem scrollToElement_missing (targetId : String) (s : PageState)
    (h : s.dom targetId = none) :
    (scrollToElement targetId s).1 = false ∧
    (scrollToElement targetId s).2 =
      { s with warnings := s.warnings ++ [warnNotFound targetId] } := by
  unfold scrollToElement
  rw [h]
  exact ⟨rfl, rfl⟩

/-- A page state over the empty document, for witnesses. -/
def emptyPage : PageState :=
  { dom := emptyDom
    pathname := "/report.html"
    search := "?lang=it"
    url := "/report.html?lang=it"
    pushStateSupported := true
    focused := none
    scrolledInto := none
    warnings := []
    events := [] }

/-- C5 witness: scrolling to `report` in the empty document fails and only
records the warning. -/
theorem scrollToElement_missing_witness :
    (scrollToElement "report" emptyPage).1 = false ∧
    (scrollToElement "report" emptyPage).2 =
      { emptyPage with
          warnings := emptyPage.warnings ++ [warnNotFound "report"] } :=
  scrollToElement_missing "report" emptyPage rfl

/-- C6: for a target id whose element exists (and `history.pushState`
available), `scrollToElement` returns true and rewrites the URL to the
current pathname, then the current search string, then `"#" + targetId`:
the pathname and query-string components are unchanged and only the hash
fragment is replaced. -/
theorem scrollToElement_found_updates_hash (targetId : String)
    (s : PageState) (r : Rect) (h : s.dom targetId = some r)
    (hps : s.pushStateSupported = true) :
    (scrollToElement targetId s).1 = true ∧
    (scrollToElement targetId s).2.url =
      s.pathname ++ s.search ++ "#" ++ targetId ∧
    (scrollToElement targetId s).2.pathname = s.pathname ∧
    (scrollToElement targetId s).2.search = s.search := by
  unfold scrollToElement
  rw [h]
  simp [hps]

/-- A page state over the document where the homepage section exists. -/
def homePage : PageState := { emptyPage with dom := homeDom }

/-- C6 witness: scrolling to the existing `homepage` element succeeds and
replaces exactly the hash fragment of the URL. -/
theorem scrollToElement_found_updates_hash_witness :
    (scrollToElement "homepage" homePage).1 = true ∧
    (scrollToElement "homepage" homePage).2.url =
      homePage.pathname ++ homePage.search ++ "#" ++ "homepage" ∧
    (scrollToElement "homepage" homePage).2.pathname = homePage.pathname ∧
    (scrollToElement "homepage" homePage).2.search = homePage.search :=
  scrollToElement_found_updates_hash "homepage" homePage ⟨0, 50⟩
    (by simp [homePage, homeDom, emptyPage]) rfl

/-- A word character of the JS regex class `\w`: ASCII letter, ASCII digit
or underscore. -/
def isWordChar (c : Char) : Bool := c.isAlpha || c.isDigit || c == '_'

/-- The regex `^#[a-zA-Z][\w-]*$` of `validateHref` (src/index.js line 261)
on the character sequence of a string: a hash sign, an ASCII letter, then
word characters or hyphens to the end. -/
def matchesHrefPattern (l : List Char) : Bool :=
  match l with
  | c0 :: c :: rest =>
      c0 == '#' && c.isAlpha && rest.all (fun d => isWordChar d || d == '-')
  | _ => false

/-- Embedding of `validateHref(href)` (src/index.js lines 256-262): the
attribute is non-null, truthy (non-empty), starts with a hash sign, has
length above one, and matches `^#[a-zA-Z][\w-]*$`.  JS strings are
embedded through their character sequence, so `startsWith` is a check on
the head character and `length` is the character count. -/
def validateHref (href : Option String) : Bool :=
  match href with
  | none => false
  | some s =>
      !s.data.isEmpty &&
      s.data.head? == some '#' &&
      decide (1 < s.data.length) &&
      matchesHrefPattern s.data

lemma validateHrefChars (l : List Char) :
    (!l.isEmpty && l.head? == some '#' && decide (1 < l.length) &&
      matchesHrefPattern l) = matchesHrefPattern l := by
  match l with
  | [] => rfl
  | [c] => simp [matchesHrefPattern]
  | c :: c2 :: tl =>
      cases hc : (c == '#') <;>
        simp [matchesHrefPattern, hc]

lemma validateHref_some (s : String) :
    validateHref (some s) = matchesHrefPattern s.data := by
  unfold validateHref
  exact validateHrefChars s.data

/-- The result of the three `closest` lookups of `handleDocumentClick`
(src/index.js lines 157-159): whether the click lands on the
`#goToReport` button, on an `a.smooth-scroll` link (carrying its `href`
attribute), or on an `a[download]` link (carrying its `download`
attribute). -/
structure ClickTargets where
  goToReportButton : Bool
  smoothLink : Option (Option String)
  downloadLink : Option (Option String)

/-- The fixed text of the invalid-href console warning (src/index.js line
184); the offending href value is passed as a further console argument. -/
def warnInvalidHref : String :=
  "[Airbus Site] Invalid href format for smooth scroll:"

/-- Embedding of `trackEvent(action, category, label)` (src/index.js lines
289-303): records the analytics event.  The conditional gtag call and the
localhost-only debug log are the delivery channels of that one event and
are not separate observable state. -/
def trackEvent (action category label : String) (s : PageState) : PageState :=
  { s with events := s.events ++ [(action, category, label)] }

/-- Embedding of `handleDocumentClick` (src/index.js lines 155-198): the
`#goToReport` button scrolls to the report and tracks on success; a
smooth-scroll link is validated, then scrolled to and tracked on success,
an invalid href only logging a console warning; a download link tracks the
download.  `showDownloadFeedback` only swaps button text transiently and
is not modelled. -/
def handleDocumentClick (e : ClickTargets) (s : PageState) : PageState :=
  if e.goToReportButton then
    let r := scrollToElement "report" s
    if r.1 then trackEvent "button_click" "go_to_report" "homepage" r.2 else r.2
  else
    match e.smoothLink with
    | some href =>
        if validateHref href then
          let targetId := (href.getD "").drop 1
          let r := scrollToElement targetId s
          if r.1 then trackEvent "navigation" "smooth_scroll" targetId r.2
          else r.2
        else
          { s with warnings := s.warnings ++ [warnInvalidHref] }
    | none =>
        match e.downloadLink with
        | some dl =>
            trackEvent "download" "report_pdf"
              (match dl with
               | some d => if d.isEmpty then "document" else d
               | none => "document") s
        | none => s

/-- C9: `validateHref` answers exactly the regex `^#[a-zA-Z][\w-]*$` on
string inputs and rejects a null attribute; and a click on a smooth-scroll
link whose href fails the test only appends the console warning — the
scroll target, URL, focus and analytics events are untouched, so
`scrollToElement` and `trackEvent` are never reached. -/
theorem validateHref_spec (hrefStr : String) (href : Option String)
    (dl : Option (Option String)) (s : PageState)
    (hbad : validateHref href = false) :
    validateHref (some hrefStr) = matchesHrefPattern hrefStr.data ∧
    validateHref none = false ∧
    handleDocumentClick
        { goToReportButton := false, smoothLink := some href,
          downloadLink := dl } s =
      { s with warnings := s.warnings ++ [warnInvalidHref] } := by
  refine ⟨validateHref_some hrefStr, rfl, ?_⟩
  unfold handleDocumentClick
  simp [hbad]

/-- C9 witness at the spec's own examples: `"#report"` passes the test,
while the bare `"#"` fails it and a click on such a link only warns. -/
theorem validateHref_spec_witness :
    validateHref (some "#report") = matchesHrefPattern "#report".data ∧
    validateHref none = false ∧
    handleDocumentClick
        { goToReportButton := false, smoothLink := some (some "#"),
          downloadLink := none } emptyPage =
      { emptyPage with
          warnings := emptyPage.warnings ++ [warnInvalidHref] } :=
  validateHref_spec "#report" (some "#") none emptyPage (by decide)

/-- The document as the script reads it through `querySelector`: whether a
given selector matches some element. -/
structure QueryDoc where
  present : String → Bool

/-- The critical element table of `validateCriticalElements`
(src/index.js lines 329-334): selector and human-readable name. -/
def criticalElements : List (String × String) :=
  [("#homepage", "Homepage section"), ("#performance", "Performance section"),
   ("#report", "Report section"), ("nav", "Navigation bar")]

/-- Embedding of `validateCriticalElements()` (src/index.js lines
328-347): filters the critical elements down to the missing ones, warns
once naming all of them when any is missing, and returns whether none is
missing. -/
def validateCriticalElements (doc : QueryDoc) : Bool × List String :=
  let missing := criticalElements.filter (fun p => !(doc.present p.1))
  (missing.length == 0,
   if 0 < missing.length then
     ["[Airbus Site] Missing critical elements: " ++
       String.intercalate ", " (missing.map (fun p => p.2))]
   else [])

/-- The successive observable steps of `initializeSite()` (src/index.js
lines 378-422), in source order. -/
inductive SiteStep where
  | logInit
  | errorCriticalMissing
  | setupAccessibility
  | handleWindowResize
  | addScrollNavbarListener
  | addScrollActiveLinkListener
  | addResizeListener
  | addClickListener
  | addKeydownListener
  | addBeforeUnloadListener
  | addPopStateListener
  | runNavbarScroll
  | runUpdateActiveNavLink
  | scheduleHashScroll
  | logComplete
deriving DecidableEq

/-- The setup steps of `initializeSite` that follow critical-element
validation (accessibility, viewport variables, all listeners, initial
navbar and active-link state); none of them is gated on the validation
result. -/
def initializeSiteTail : List SiteStep :=
  [SiteStep.setupAccessibility, SiteStep.handleWindowResize,
   SiteStep.addScrollNavbarListener, SiteStep.addScrollActiveLinkListener,
   SiteStep.addResizeListener, SiteStep.addClickListener,
   SiteStep.addKeydownListener, SiteStep.addBeforeUnloadListener,
   SiteStep.addPopStateListener, SiteStep.runNavbarScroll,
   SiteStep.runUpdateActiveNavLink]

/-- Embedding of `initializeSite()` (src/index.js lines 378-422) as its
sequence of steps: the init log, a console error exactly when critical
elements are missing, the full setup tail, the deferred scroll to the URL
hash when one is present, and the completion log. -/
def initializeSite (doc : QueryDoc) (hash : String) : List SiteStep :=
  [SiteStep.logInit] ++
  (if (validateCriticalElements doc).1 then []
   else [SiteStep.errorCriticalMissing]) ++
  initializeSiteTail ++
  (if !hash.isEmpty then [SiteStep.scheduleHashScroll] else []) ++
  [SiteStep.logComplete]

lemma filter_not_length_beq_zero {β : Type} (pred : β → Bool) (l : List β) :
    ((l.filter (fun x => !pred x)).length == 0) = l.all pred := by
  induction l with
  | nil => rfl
  | cons x xs ih =>
      cases hx : pred x <;> simp_all [List.filter_cons, hx]

/-- C7: `validateCriticalElements` returns true exactly when all four
critical selectors match; it emits no warning exactly when it returns
true (and a single warning otherwise); and the steps of `initializeSite`
other than the console error are the same for every document — missing
elements are never fatal. -/
theorem validateCriticalElements_nonfatal (doc doc2 : QueryDoc)
    (hash : String) :
    ((validateCriticalElements doc).1 =
      criticalElements.all (fun p => doc.present p.1)) ∧
    (((validateCriticalElements doc).2 = []) ↔
      (validateCriticalElements doc).1 = true) ∧
    ((initializeSite doc hash).filter
        (fun a => !(a == SiteStep.errorCriticalMissing)) =
      (initializeSite doc2 hash).filter
        (fun a => !(a == SiteStep.errorCriticalMissing))) := by
  refine ⟨?_, ?_, ?_⟩
  · unfold validateCriticalElements
    exact filter_not_length_beq_zero _ _
  · unfold validateCriticalElements
    rcases Nat.eq_zero_or_pos
        (criticalElements.filter (fun p => !(doc.present p.1))).length with
      hz | hp
    · simp [hz]
    · simp [hp, Nat.pos_iff_ne_zero.mp hp]
  · unfold initializeSite
    cases (validateCriticalElements doc).1 <;>
      cases (validateCriticalElements doc2).1 <;>
        simp [List.filter_append, initializeSiteTail]

end AirbusSite
